import Mathlib

/-!
Verification of the dicomauto load-generator core (compass_perf) against its
natural-language specification.

The development shallowly embeds the three components of the core:

* src/compass_perf/metrics.py  — the Sample data model and the PerfMetrics
  collector (aggregate statistics over a list of samples);
* src/config.py                — environment-derived configuration with
  fallback-to-default parsing;
* src/dicom_sender.py          — the DicomSender per-operation send path, the
  pacing loop of load_test_for_duration, and presentation-context setup.

Python floats are embedded as rationals (ℚ): every concrete value the claims
mention (latencies in whole milliseconds, rates, 0.95) is exactly
representable, and the one float subtlety that matters — the truncation
int(len * 0.95) — is modelled by the integer division it provably equals
(see the comment at p95_latency_ms).  Python list objects are values here;
where aliasing matters (the samples accessor returning a fresh copy) an
explicit little heap of list cells is used.  Fallible Python code (a raising
float(...) call) returns Option.
-/

namespace DicomAuto

/-- A Python value that can end up in the success field of a Sample.  The
sender computes success as the Python expression
status and status.Status in (0x0000,)
whose value is a genuine bool when status is truthy, and the falsy status
object itself (pynetdicom returns an empty status Dataset when the
association is aborted) when status is falsy. -/
inductive PyVal where
  | pyBool (b : Bool)
  | pyFalsyStatus
deriving DecidableEq

/-- Python truthiness of such a value: bool(b) = b, and the empty status
object is falsy. -/
def PyVal.truthy : PyVal → Bool
  | .pyBool b => b
  | .pyFalsyStatus => false

/-- One message timing and status record, from the Sample dataclass of
src/compass_perf/metrics.py (lines 21-33).  Timestamps are rationals
standing for the Python floats. -/
structure Sample where
  start_time : ℚ
  end_time : ℚ
  success : PyVal
  status_code : Option ℤ := none
  error : Option String := none
deriving DecidableEq

/-- latency_ms property: (end_time - start_time) * 1000.0. -/
def Sample.latency_ms (s : Sample) : ℚ :=
  (s.end_time - s.start_time) * 1000

namespace PerfMetrics

/-- The collector state is its internal list of samples (PerfMetrics._samples).
total is len(self.samples). -/
def total (st : List Sample) : ℕ := st.length

/-- successes: sum(1 for s in self.samples if s.success) — Python counts the
samples whose success value is truthy. -/
def successes (st : List Sample) : ℕ :=
  st.countP (fun s => s.success.truthy)

/-- failures: sum(1 for s in self.samples if not s.success). -/
def failures (st : List Sample) : ℕ :=
  st.countP (fun s => !s.success.truthy)

/-- error_rate: 0.0 when total == 0, else failures / float(total). -/
def error_rate (st : List Sample) : ℚ :=
  if total st = 0 then 0 else (failures st : ℚ) / (total st : ℚ)

/-- _latencies: [s.latency_ms for s in self.samples if s.success]. -/
def _latencies (st : List Sample) : List ℚ :=
  (st.filter (fun s => s.success.truthy)).map Sample.latency_ms

/-- Python min(...) over a nonempty list (returns none on []; the caller
guards with the emptiness test). -/
def listMin : List ℚ → Option ℚ
  | [] => none
  | x :: xs => some (xs.foldl min x)

/-- min_latency_ms: min(lat) if lat else None. -/
def min_latency_ms (st : List Sample) : Option ℚ :=
  listMin (_latencies st)

/-- avg_latency_ms: statistics.mean(lat) if lat else None, the arithmetic
mean sum / count. -/
def avg_latency_ms (st : List Sample) : Option ℚ :=
  let lat := _latencies st
  if lat.isEmpty then none else some (lat.sum / (lat.length : ℚ))

/-- Python sorted(...): a stable ascending sort, embedded as insertion
sort. -/
def sortAsc (l : List ℚ) : List ℚ :=
  l.insertionSort (· ≤ ·)

/-- p95_latency_ms of src/compass_perf/metrics.py lines 83-90:
lat = sorted(self._latencies()); None if empty; k = int(len(lat)*0.95) - 1
clamped to [0, len-1]; return lat[k].
The float product len * 0.95 truncated by int(...) equals the integer
division 19 * len / 20 for every list length below 2 ^ 49: 0.95 rounds to a
double slightly above 19/20, the fractional part of the exact product is
either 0 or at least 1/20, and the rounding error is far below 1/20, so
truncation lands on floor(19 * len / 20) either way. -/
def p95_latency_ms (st : List Sample) : Option ℚ :=
  let lat := sortAsc (_latencies st)
  if lat.isEmpty then none
  else
    let k : ℤ := (19 * (lat.length : ℤ)) / 20 - 1
    let k : ℤ := max 0 (min k ((lat.length : ℤ) - 1))
    lat[k.toNat]?

/-- throughput_per_second of src/compass_perf/metrics.py lines 92-108. The
float literal 1e-9 is embedded as 1/1000000000. -/
def throughput_per_second (st : List Sample) (window_seconds : Option ℚ) : ℚ :=
  match st with
  | [] => 0
  | s0 :: rest =>
    let endTime := (rest.map Sample.end_time).foldl max s0.end_time
    let startTime :=
      match window_seconds with
      | none => (rest.map Sample.start_time).foldl min s0.start_time
      | some w => endTime - w
    let duration := max (endTime - startTime) (1 / 1000000000)
    let count := (st.filter (fun s => startTime ≤ s.start_time)).length
    (count : ℚ) / duration

end PerfMetrics

/-- The JSON-serializable snapshot dict of PerfMetrics.snapshot, one field
per key. -/
structure SnapshotData where
  total : ℕ
  successes : ℕ
  failures : ℕ
  error_rate : ℚ
  min_latency_ms : Option ℚ
  avg_latency_ms : Option ℚ
  p95_latency_ms : Option ℚ
  throughput_per_second : ℚ
  timestamp : ℚ
deriving DecidableEq

/-- PerfMetrics.snapshot (src/compass_perf/metrics.py lines 110-124): every
statistic of the current sample list, plus "timestamp": time.time() — the
wall clock at the moment of the call, passed here as now. -/
def PerfMetrics.snapshot (st : List Sample) (now : ℚ) : SnapshotData :=
  { total := PerfMetrics.total st
    successes := PerfMetrics.successes st
    failures := PerfMetrics.failures st
    error_rate := PerfMetrics.error_rate st
    min_latency_ms := PerfMetrics.min_latency_ms st
    avg_latency_ms := PerfMetrics.avg_latency_ms st
    p95_latency_ms := PerfMetrics.p95_latency_ms st
    throughput_per_second := PerfMetrics.throughput_per_second st none
    timestamp := now }

/-! ## The samples accessor and record, with list aliasing made explicit

The Python collector holds a mutable list object; record appends to it and
the samples property returns list(self._samples), a fresh list object with
the same contents.  A minimal heap of list cells embeds this: a cell index
stands for a Python list object, Heap.write for in-place mutation of the
object, Heap.alloc for construction of a fresh one. -/

/-- A heap of Python list-of-Sample objects, indexed by cell number. -/
structure Heap where
  cells : List (List Sample)

/-- The contents of cell r (an absent cell reads as empty). -/
def Heap.read (h : Heap) (r : ℕ) : List Sample :=
  h.cells.getD r []

/-- In-place mutation of the list object at cell r. -/
def Heap.write (h : Heap) (r : ℕ) (v : List Sample) : Heap :=
  ⟨h.cells.set r v⟩

/-- Construction of a fresh list object: a new cell, distinct from every
existing one. -/
def Heap.alloc (h : Heap) (v : List Sample) : Heap × ℕ :=
  (⟨h.cells ++ [v]⟩, h.cells.length)

/-- PerfMetrics.record (src/compass_perf/metrics.py lines 43-45): append the
sample to the internal list object m, in place. -/
def PerfMetrics.record (h : Heap) (m : ℕ) (s : Sample) : Heap :=
  h.write m (h.read m ++ [s])

/-- The samples property (src/compass_perf/metrics.py lines 47-50): return
list(self._samples), a fresh list object holding a copy of the internal
contents. -/
def PerfMetrics.samples (h : Heap) (m : ℕ) : Heap × ℕ :=
  h.alloc (h.read m)

/-! ## Configuration (src/config.py) -/

/-- Whitespace stripping as Python int()/float() apply it to their string
argument. -/
def isSpaceChar (c : Char) : Bool :=
  c = ' ' ∨ c = '\t' ∨ c = '\n' ∨ c = '\r'

def trimChars (cs : List Char) : List Char :=
  ((cs.dropWhile isSpaceChar).reverse.dropWhile isSpaceChar).reverse

/-- The natural number a nonempty all-digit run denotes. -/
def digitsToNat (cs : List Char) : ℕ :=
  cs.foldl (fun acc c => 10 * acc + (c.toNat - 48)) 0

def parseDigits (cs : List Char) : Option ℕ :=
  if cs ≠ [] ∧ cs.all Char.isDigit then some (digitsToNat cs) else none

/-- Python int(str) on the decimal grammar the configuration uses: optional
surrounding whitespace, optional sign, a nonempty digit run; anything else
raises ValueError, i.e. none. -/
def pyParseInt (s : String) : Option ℤ :=
  match trimChars s.toList with
  | '-' :: rest => (parseDigits rest).map (fun n => -(n : ℤ))
  | '+' :: rest => (parseDigits rest).map (fun n => (n : ℤ))
  | cs => (parseDigits cs).map (fun n => (n : ℤ))

/-- The unsigned part of Python float(str) on the decimal grammar the
configuration uses: digits, optionally followed by a point and further
digits (at least one digit in total). -/
def parseUnsignedFloat (cs : List Char) : Option ℚ :=
  let intPart := cs.takeWhile Char.isDigit
  let rest := cs.dropWhile Char.isDigit
  match rest with
  | [] =>
    if intPart = [] then none else some (digitsToNat intPart : ℚ)
  | '.' :: frac =>
    if frac.all Char.isDigit ∧ (intPart ≠ [] ∨ frac ≠ []) then
      some ((digitsToNat intPart : ℚ) +
        (digitsToNat frac : ℚ) / ((10 : ℚ) ^ frac.length))
    else none
  | _ => none

/-- Python float(str): optional surrounding whitespace and sign around the
unsigned decimal; none models the ValueError float raises on anything
else. -/
def pyParseFloat (s : String) : Option ℚ :=
  match trimChars s.toList with
  | '-' :: rest => (parseUnsignedFloat rest).map (fun q => -q)
  | '+' :: rest => parseUnsignedFloat rest
  | cs => parseUnsignedFloat cs

/-- The process environment, as os.getenv sees it. -/
def Env : Type := String → Option String

/-- _env_int of src/config.py lines 23-30: the default when the variable is
absent, the parsed value when int(value) succeeds, and the default again
when int(value) raises ValueError. -/
def _env_int (env : Env) (name : String) (default : ℤ) : ℤ :=
  match env name with
  | none => default
  | some v => (pyParseInt v).getD default

/-- LoadProfileConfig of src/config.py lines 52-59. -/
structure LoadProfileConfig where
  peak_images_per_second : ℤ
  load_multiplier : ℚ
  test_duration_seconds : ℤ
  concurrency : ℤ
deriving DecidableEq

/-- LoadProfileConfig.from_env (src/config.py lines 61-68).  The three
integer fields go through _env_int and fall back to their defaults; the
multiplier is float(os.getenv("LOAD_MULTIPLIER", "3.0")), a bare float()
call whose ValueError propagates — none embeds that raise, so construction
is fallible. -/
def LoadProfileConfig.from_env (env : Env) : Option LoadProfileConfig :=
  match pyParseFloat ((env "LOAD_MULTIPLIER").getD "3.0") with
  | none => none
  | some m =>
    some { peak_images_per_second := _env_int env "PEAK_IMAGES_PER_SECOND" 50
           load_multiplier := m
           test_duration_seconds := _env_int env "TEST_DURATION_SECONDS" 300
           concurrency := _env_int env "LOAD_CONCURRENCY" 8 }

/-! ## The sender (src/dicom_sender.py) -/

/-- A requested presentation context: one of the storage contexts the
protocol library enumerates, or the Verification context. -/
inductive PresentationContext where
  | storage (id : ℕ)
  | verification
deriving DecidableEq

/-- _build_ae (src/dicom_sender.py lines 42-50): append the first 127 of
AllStoragePresentationContexts (a list the protocol library supplies, here
an arbitrary list of storage context ids), then add the one Verification
context, for a maximum of 128 requested contexts. -/
def build_ae_contexts (allStorageContexts : List ℕ) : List PresentationContext :=
  ((allStorageContexts.take 127).map PresentationContext.storage) ++
    [PresentationContext.verification]

/-- What one call of _send_single_dataset runs into, decided by the network:
the association is refused, or it is established and send_c_store returns a
status (none standing for the falsy empty status Dataset of an aborted or
timed-out operation, some c for a status Dataset carrying code c), or some
step raises an exception. -/
inductive SendOutcome where
  | assocFailed
  | storeCompleted (status : Option ℤ)
  | raised (msg : String)
deriving DecidableEq

/-- The Python expression status and status.Status in (0x0000,): the falsy
status object itself when status is falsy, else the bool of the membership
test. -/
def storeSuccessValue (status : Option ℤ) : PyVal :=
  match status with
  | none => .pyFalsyStatus
  | some c => .pyBool (c == 0)

/-- The repr of the status carried into the error message
"Non-success status: ...". -/
def statusText : Option ℤ → String
  | none => "(empty status)"
  | some c => toString c

/-- _send_single_dataset (src/dicom_sender.py lines 52-106) as a transformer
of the metrics sample list, given the outcome and the perf_counter readings
taken at entry and at the record point.  Every branch — association
failure, a returned store status, or a caught exception — appends exactly
one Sample; the finally clause only shuts the AE down. -/
def _send_single_dataset (o : SendOutcome) (start endT : ℚ)
    (metrics : List Sample) : List Sample :=
  match o with
  | .assocFailed =>
    metrics ++ [{ start_time := start, end_time := endT,
                  success := .pyBool false,
                  error := some "Association failed" }]
  | .storeCompleted status =>
    let success := storeSuccessValue status
    metrics ++ [{ start_time := start, end_time := endT,
                  success := success,
                  status_code := status,
                  error := if success.truthy then none
                           else some ("Non-success status: " ++ statusText status) }]
  | .raised msg =>
    metrics ++ [{ start_time := start, end_time := endT,
                  success := .pyBool false,
                  error := some msg }]

/-- One operation as load_test_for_duration submits it: its outcome and the
two clock readings its worker takes. -/
structure SubmittedOp where
  outcome : SendOutcome
  start : ℚ
  endT : ℚ

/-- The body of load_test_for_duration (src/dicom_sender.py lines 108-159)
at the level the accounting claim lives: the while loop submits one
operation per iteration and increments total_sent by one under the lock;
as_completed(futures) and executor.shutdown(wait=True) run every submitted
operation to completion before the return, so the returned pair is the
metrics list after every submitted operation has recorded, together with
total_sent = the number of submissions. -/
def load_test_for_duration (ops : List SubmittedOp)
    (metrics : List Sample) : List Sample × ℕ :=
  (ops.foldl (fun acc op => _send_single_dataset op.outcome op.start op.endT acc)
    metrics, ops.length)

/-- The throttle computation of load_test_for_duration lines 122-129:
target_rate is the supplied rate limit, defaulting to
peak_images_per_second * load_multiplier; the inter-send period is
1.0 / target_rate when target_rate > 0 and 0.0 otherwise. -/
def computePeriod (rate_limit_images_per_second : Option ℚ)
    (peak : ℚ) (mult : ℚ) : ℚ :=
  let target_rate :=
    match rate_limit_images_per_second with
    | none => peak * mult
    | some r => r
  if target_rate > 0 then 1 / target_rate else 0

/-- One pacing step of the while loop (src/dicom_sender.py lines 142-146)
under an idealized clock in which sleep(d) wakes exactly d later:
now = perf_counter(); when period > 0 and now < next_send_time the loop
sleeps until next_send_time; the clock after the optional sleep is
therefore max of the two; the code then sets
next_send_time = perf_counter() + period from that clock.  Returns (the
clock at submission, the new next_send_time). -/
def paceIteration (now next_send_time period : ℚ) : ℚ × ℚ :=
  let clock := if period > 0 ∧ now < next_send_time then next_send_time else now
  (clock, clock + period)

/-! ## Helper lemmas -/

theorem foldl_min_le_init (x : ℚ) (xs : List ℚ) : xs.foldl min x ≤ x := by
  induction xs generalizing x with
  | nil => simp
  | cons y ys ih => exact le_trans (ih (min x y)) (min_le_left x y)

theorem foldl_min_le_mem (x : ℚ) (xs : List ℚ) :
    ∀ y ∈ xs, xs.foldl min x ≤ y := by
  induction xs generalizing x with
  | nil => simp
  | cons z zs ih =>
    intro y hy
    rcases List.mem_cons.mp hy with h | h
    · subst h
      exact le_trans (foldl_min_le_init (min x y) zs) (min_le_right x y)
    · exact ih (min x z) y h

theorem foldl_min_mem (x : ℚ) (xs : List ℚ) : xs.foldl min x ∈ x :: xs := by
  induction xs generalizing x with
  | nil => simp
  | cons y ys ih =>
    rcases List.mem_cons.mp (ih (min x y)) with h | h
    · rcases min_choice x y with hc | hc
      · rw [List.foldl_cons, h, hc]; exact List.mem_cons_self _ _
      · rw [List.foldl_cons, h, hc]
        exact List.mem_cons_of_mem _ (List.mem_cons_self _ _)
    · exact List.mem_cons_of_mem _ (List.mem_cons_of_mem _ h)

theorem listMin_spec (l : List ℚ) (hl : l ≠ []) :
    ∃ m, PerfMetrics.listMin l = some m ∧ m ∈ l ∧ ∀ x ∈ l, m ≤ x := by
  cases l with
  | nil => exact absurd rfl hl
  | cons x xs =>
    refine ⟨xs.foldl min x, rfl, foldl_min_mem x xs, ?_⟩
    intro y hy
    rcases List.mem_cons.mp hy with h | h
    · rw [h]; exact foldl_min_le_init x xs
    · exact foldl_min_le_mem x xs y h

theorem latencies_length (st : List Sample) :
    (PerfMetrics._latencies st).length = PerfMetrics.successes st := by
  simp [PerfMetrics._latencies, PerfMetrics.successes,
    List.countP_eq_length_filter]

/-- C7: error_rate equals failures / total when total > 0, and equals 0
(a defined value, not an error) when total = 0. -/
theorem C7_error_rate_total_division : ∀ st : List Sample,
    (PerfMetrics.total st = 0 → PerfMetrics.error_rate st = 0) ∧
    (0 < PerfMetrics.total st →
      PerfMetrics.error_rate st =
        (PerfMetrics.failures st : ℚ) / (PerfMetrics.total st : ℚ)) := by
  intro st
  constructor
  · intro h; simp [PerfMetrics.error_rate, h]
  · intro h
    simp [PerfMetrics.error_rate, Nat.pos_iff_ne_zero.mp h]

/-- C8: min_latency_ms and avg_latency_ms are computed over the successful
samples only — when successes exist, min is a successful latency below every
successful latency and avg times the success count is the sum of the
successful latencies; both are none exactly when there is no successful
sample, however many failed samples exist. -/
theorem C8_min_avg_over_successes : ∀ st : List Sample,
    (PerfMetrics.successes st = 0 →
      PerfMetrics.min_latency_ms st = none ∧
      PerfMetrics.avg_latency_ms st = none) ∧
    (0 < PerfMetrics.successes st →
      ∃ m a, PerfMetrics.min_latency_ms st = some m ∧
        PerfMetrics.avg_latency_ms st = some a ∧
        m ∈ PerfMetrics._latencies st ∧
        (∀ x ∈ PerfMetrics._latencies st, m ≤ x) ∧
        a * (PerfMetrics.successes st : ℚ) =
          (PerfMetrics._latencies st).sum) := by
  intro st
  constructor
  · intro h
    have hnil : PerfMetrics._latencies st = [] := by
      have := latencies_length st
      rw [h] at this
      exact List.length_eq_zero.mp this
    constructor
    · simp [PerfMetrics.min_latency_ms, hnil, PerfMetrics.listMin]
    · simp [PerfMetrics.avg_latency_ms, hnil]
  · intro h
    have hne : PerfMetrics._latencies st ≠ [] := by
      intro hnil
      have := latencies_length st
      rw [hnil] at this
      simp at this
      omega
    obtain ⟨m, hm, hmem, hle⟩ := listMin_spec _ hne
    have hlen : ((PerfMetrics._latencies st).length : ℚ) ≠ 0 := by
      have := latencies_length st
      have : (PerfMetrics._latencies st).length ≠ 0 := by omega
      exact_mod_cast this
    refine ⟨m, (PerfMetrics._latencies st).sum /
      ((PerfMetrics._latencies st).length : ℚ), ?_, ?_, hmem, hle, ?_⟩
    · exact hm
    · simp [PerfMetrics.avg_latency_ms, List.isEmpty_iff, hne]
    · rw [← latencies_length st, div_mul_cancel₀ _ hlen]

/-- C10: every list of requested presentation contexts built by _build_ae
holds at most 128 contexts — at most 127 storage contexts (the first 127 of
the full storage list) and exactly one Verification context — whatever the
protocol library's storage list is. -/
theorem C10_presentation_context_budget : ∀ l : List ℕ,
    (build_ae_contexts l).length ≤ 128 ∧
    ((build_ae_contexts l).countP
      (fun c => c matches PresentationContext.storage _)) ≤ 127 ∧
    (build_ae_contexts l).count PresentationContext.verification = 1 ∧
    (127 ≤ l.length → (build_ae_contexts l).length = 128) ∧
    (l.length < 127 → (build_ae_contexts l).length = l.length + 1) := by
  intro l
  have htake : (l.take 127).length = min 127 l.length := List.length_take _ _
  refine ⟨?_, ?_, ?_, ?_, ?_⟩
  · simp only [build_ae_contexts, List.length_append, List.length_map,
      List.length_singleton, htake]
    omega
  · simp only [build_ae_contexts, List.countP_append]
    have h1 : (List.countP (fun c => c matches PresentationContext.storage _)
        ((l.take 127).map PresentationContext.storage))
        ≤ ((l.take 127).map PresentationContext.storage).length :=
      List.countP_le_length _
    have h2 : List.countP (fun c => c matches PresentationContext.storage _)
        [PresentationContext.verification] = 0 := by decide
    simp only [List.length_map, htake] at h1
    omega
  · rw [build_ae_contexts, List.count_append]
    have h1 : ((l.take 127).map PresentationContext.storage).count
        PresentationContext.verification = 0 := by
      rw [List.count_eq_zero]
      intro hmem
      obtain ⟨i, _, hi⟩ := List.mem_map.mp hmem
      exact PresentationContext.noConfusion hi
    rw [h1]
    rfl
  · intro h
    simp only [build_ae_contexts, List.length_append, List.length_map,
      List.length_singleton, htake]
    omega
  · intro h
    simp only [build_ae_contexts, List.length_append, List.length_map,
      List.length_singleton, htake]
    omega

theorem load_fold_length (ops : List SubmittedOp) (m : List Sample) :
    (ops.foldl
      (fun acc op => _send_single_dataset op.outcome op.start op.endT acc)
      m).length = m.length + ops.length := by
  induction ops generalizing m with
  | nil => simp
  | cons op rest ih =>
    rw [List.foldl_cons, ih]
    have hone : (_send_single_dataset op.outcome op.start op.endT m).length
        = m.length + 1 := by
      cases op.outcome <;> simp [_send_single_dataset]
    rw [hone]
    simp only [List.length_cons]
    omega

/-- C1: every call of _send_single_dataset records exactly one Sample on
every exit path (association failure, store status, or caught exception),
and load_test_for_duration completes all submitted operations before
returning, so the returned total_sent equals the collector's final total
(the growth of the metrics list). -/
theorem C1_one_sample_per_send_totals_agree :
    (∀ (o : SendOutcome) (start endT : ℚ) (m : List Sample),
      (_send_single_dataset o start endT m).length = m.length + 1) ∧
    (∀ (ops : List SubmittedOp) (m : List Sample),
      ((load_test_for_duration ops m).1).length
        = m.length + (load_test_for_duration ops m).2) ∧
    (∀ ops : List SubmittedOp,
      ((load_test_for_duration ops []).1).length
        = (load_test_for_duration ops []).2) := by
  refine ⟨?_, ?_, ?_⟩
  · intro o start endT m
    cases o <;> simp [_send_single_dataset]
  · intro ops m
    exact load_fold_length ops m
  · intro ops
    have := load_fold_length ops []
    simpa [load_test_for_duration] using this

/-- Modelled from the spec words for p95 (second definition, for comparison
with the code's p95_latency_ms): sort ascending the successful-sample
latencies; index k = clamp(floor(0.95 * n) - 1, 0, n - 1); return sorted[k];
None when there are no successful samples. -/
def p95_spec (latencies : List ℚ) : Option ℚ :=
  if latencies.length = 0 then none
  else
    let sorted := latencies.insertionSort (· ≤ ·)
    let k : ℤ := max 0 (min (⌊((95 : ℚ) / 100) * (latencies.length : ℚ)⌋ - 1)
      ((latencies.length : ℤ) - 1))
    sorted[k.toNat]?

theorem p95_code_eq_spec (st : List Sample) :
    PerfMetrics.p95_latency_ms st = p95_spec (PerfMetrics._latencies st) := by
  have hlen : (List.insertionSort (· ≤ ·) (PerfMetrics._latencies st)).length
      = (PerfMetrics._latencies st).length :=
    (List.perm_insertionSort (· ≤ ·) (PerfMetrics._latencies st)).length_eq
  have hfloor : ⌊((95 : ℚ) / 100) * ((PerfMetrics._latencies st).length : ℚ)⌋
      = (19 * ((PerfMetrics._latencies st).length : ℤ)) / 20 := by
    have h : ((95 : ℚ) / 100) * ((PerfMetrics._latencies st).length : ℚ)
        = ((19 * ((PerfMetrics._latencies st).length : ℤ) : ℤ) : ℚ)
          / ((20 : ℕ) : ℚ) := by
      push_cast; ring
    rw [h, Rat.floor_intCast_div_natCast]
    norm_num
  simp only [PerfMetrics.p95_latency_ms, p95_spec, PerfMetrics.sortAsc]
  rw [hlen, hfloor]
  by_cases hz : (PerfMetrics._latencies st).length = 0
  · have hnil : List.insertionSort (· ≤ ·) (PerfMetrics._latencies st) = [] :=
      List.length_eq_zero.mp (hlen.trans hz)
    simp [hnil, hz]
  · have hne : ¬((List.insertionSort (· ≤ ·)
        (PerfMetrics._latencies st)).isEmpty = true) := by
      rw [List.isEmpty_iff]
      intro hnil
      rw [hnil] at hlen
      simp at hlen
      omega
    rw [if_neg hne, if_neg hz]

/-- Spec scenario B: ten samples, eight successful with latencies
10..80 ms (listed out of order, so the sort matters) and two failed. -/
def scenarioB : List Sample :=
  [ { start_time := 0, end_time := 3 / 100, success := .pyBool true },
    { start_time := 0, end_time := 1 / 100, success := .pyBool true },
    { start_time := 0, end_time := 8 / 100, success := .pyBool true },
    { start_time := 0, end_time := 2 / 100, success := .pyBool true },
    { start_time := 0, end_time := 1, success := .pyBool false,
      error := some "Association failed" },
    { start_time := 0, end_time := 5 / 100, success := .pyBool true },
    { start_time := 0, end_time := 7 / 100, success := .pyBool true },
    { start_time := 0, end_time := 4 / 100, success := .pyBool true },
    { start_time := 0, end_time := 2, success := .pyBool false,
      error := some "Association failed" },
    { start_time := 0, end_time := 6 / 100, success := .pyBool true } ]

/-- C2: p95_latency_ms is exactly the nearest-rank definition of the spec —
sort the successful latencies ascending and index
clamp(floor(0.95 n) - 1, 0, n - 1) — it is none exactly on zero successful
samples, and on the spec's eight-success scenario it picks index 6, the
value 70. -/
theorem C2_p95_nearest_rank :
    (∀ st : List Sample,
      PerfMetrics.p95_latency_ms st = p95_spec (PerfMetrics._latencies st)) ∧
    (∀ st : List Sample, PerfMetrics.successes st = 0 →
      PerfMetrics.p95_latency_ms st = none) ∧
    PerfMetrics.p95_latency_ms scenarioB = some 70 := by
  refine ⟨p95_code_eq_spec, ?_, ?_⟩
  · intro st h
    have hnil : PerfMetrics._latencies st = [] := by
      have := latencies_length st
      rw [h] at this
      exact List.length_eq_zero.mp this
    rw [p95_code_eq_spec, hnil]
    rfl
  · have hlat : PerfMetrics._latencies scenarioB
        = [30, 10, 80, 20, 50, 70, 40, 60] := by
      norm_num [scenarioB, PerfMetrics._latencies, Sample.latency_ms,
        PyVal.truthy]
    have hsort : PerfMetrics.sortAsc [30, 10, 80, 20, 50, 70, 40, 60]
        = [10, 20, 30, 40, 50, 60, 70, 80] := by decide
    simp only [PerfMetrics.p95_latency_ms, hlat, hsort]
    decide

/-- C5 counterexample: the snapshot dict carries "timestamp": time.time(),
so two snapshot() calls with no intervening record() — here over the empty
collector, at clock readings 0 and 1 — do not return identical values. -/
theorem C5_counterexample_timestamp_differs :
    PerfMetrics.snapshot [] 0 ≠ PerfMetrics.snapshot [] 1 := by decide

/-- C5 (amended): two snapshot() calls with no intervening record() agree on
every key except timestamp — total, successes, failures, error_rate,
min/avg/p95 latency and throughput are all equal; the timestamp key is the
wall clock of each call and differs whenever the clock moved. -/
theorem C5_snapshot_stable_except_timestamp :
    ∀ (st : List Sample) (t1 t2 : ℚ),
      (PerfMetrics.snapshot st t1).total = (PerfMetrics.snapshot st t2).total ∧
      (PerfMetrics.snapshot st t1).successes
        = (PerfMetrics.snapshot st t2).successes ∧
      (PerfMetrics.snapshot st t1).failures
        = (PerfMetrics.snapshot st t2).failures ∧
      (PerfMetrics.snapshot st t1).error_rate
        = (PerfMetrics.snapshot st t2).error_rate ∧
      (PerfMetrics.snapshot st t1).min_latency_ms
        = (PerfMetrics.snapshot st t2).min_latency_ms ∧
      (PerfMetrics.snapshot st t1).avg_latency_ms
        = (PerfMetrics.snapshot st t2).avg_latency_ms ∧
      (PerfMetrics.snapshot st t1).p95_latency_ms
        = (PerfMetrics.snapshot st t2).p95_latency_ms ∧
      (PerfMetrics.snapshot st t1).throughput_per_second
        = (PerfMetrics.snapshot st t2).throughput_per_second ∧
      (PerfMetrics.snapshot st t1).timestamp = t1 := by
  intro st t1 t2
  exact ⟨rfl, rfl, rfl, rfl, rfl, rfl, rfl, rfl, rfl⟩

/-- C6 counterexample: when the store status is absent (the falsy empty
status of an aborted or timed-out operation), the recorded success value is
the falsy status object itself, not the bool False the claim asserts. -/
theorem C6_counterexample_success_not_bool :
    (_send_single_dataset (.storeCompleted none) 0 1 []).map Sample.success
      = [PyVal.pyFalsyStatus] ∧
    PyVal.pyFalsyStatus ≠ PyVal.pyBool false ∧
    PyVal.pyFalsyStatus ≠ PyVal.pyBool true := by
  exact ⟨rfl, by decide, by decide⟩

/-- C6 (amended): for every store attempt that establishes an association,
the recorded success value is truthy exactly when the status is present
with code 0x0000; when the status is present it is the genuine bool of the
test (code = 0); when the status is absent it is the falsy status object
itself rather than the bool False; the status code is recorded as is, the
error field is empty exactly on success and carries the status detail on
failure. -/
theorem C6_success_iff_status_zero :
    ∀ (status : Option ℤ) (start endT : ℚ) (m : List Sample),
      ∃ smp,
        _send_single_dataset (.storeCompleted status) start endT m
          = m ++ [smp] ∧
        (smp.success.truthy = true ↔ status = some 0) ∧
        smp.status_code = status ∧
        (∀ c, status = some c → smp.success = .pyBool (c == 0)) ∧
        (status = none → smp.success = .pyFalsyStatus) ∧
        (smp.error = none ↔ smp.success.truthy = true) ∧
        (smp.success.truthy = false →
          smp.error = some ("Non-success status: " ++ statusText status)) := by
  intro status start endT m
  refine ⟨_, rfl, ?_, rfl, ?_, ?_, ?_, ?_⟩
  · cases status with
    | none => simp [storeSuccessValue, PyVal.truthy]
    | some c =>
      simp [storeSuccessValue, PyVal.truthy]
  · intro c hc
    rw [hc]
    rfl
  · intro hc
    rw [hc]
    rfl
  · cases h : (storeSuccessValue status).truthy <;> simp [h]
  · intro h
    simp [h]

/-- C3 counterexample: the claimed scheduled-time recurrence fails when the
wall clock is already past the scheduled time.  With period 1, previous
scheduled time 3 and the clock at 5, the code sets the next eligible time to
clock + period = 6, not previous-scheduled + period = 4. -/
theorem C3_counterexample_schedule_drifts :
    (paceIteration 5 3 1).2 = 6 ∧ (paceIteration 5 3 1).2 ≠ 3 + 1 := by
  constructor
  · norm_num [paceIteration]
  · norm_num [paceIteration]

/-- C3 (amended): the inter-send period is 1 / target_rate when the target
rate is supplied and positive and 0 otherwise, with the rate defaulting to
peak * multiplier when not supplied; but the next eligible submission time
is the clock after the optional sleep plus the period — that is,
max(now, previous scheduled time) + period when the period is positive —
which equals the claimed previous-scheduled-plus-period recurrence only
when the wall clock has not yet passed the scheduled time (the loop then
sleeps the remainder first). -/
theorem C3_period_and_pacing :
    (∀ r peak mult : ℚ, 0 < r → computePeriod (some r) peak mult = 1 / r) ∧
    (∀ r peak mult : ℚ, ¬0 < r → computePeriod (some r) peak mult = 0) ∧
    (∀ peak mult : ℚ,
      computePeriod none peak mult = computePeriod (some (peak * mult)) peak mult) ∧
    (∀ now next period : ℚ, 0 < period →
      (paceIteration now next period).2 = max now next + period) ∧
    (∀ now next period : ℚ, 0 < period → now < next →
      (paceIteration now next period).1 = next ∧
      (paceIteration now next period).2 = next + period) ∧
    (∀ now next period : ℚ, ¬(0 < period ∧ now < next) →
      (paceIteration now next period).1 = now ∧
      (paceIteration now next period).2 = now + period) := by
  refine ⟨?_, ?_, ?_, ?_, ?_, ?_⟩
  · intro r peak mult h
    simp [computePeriod, h]
  · intro r peak mult h
    simp [computePeriod, h]
  · intro peak mult
    rfl
  · intro now next period hp
    rcases lt_or_le now next with h | h
    · rw [max_eq_right h.le]
      simp [paceIteration, hp, h]
    · rw [max_eq_left h]
      have : ¬(0 < period ∧ now < next) := by
        rintro ⟨-, hlt⟩
        exact absurd hlt (not_lt.mpr h)
      simp [paceIteration, this]
  · intro now next period hp hlt
    constructor <;> simp [paceIteration, hp, hlt]
  · intro now next period h
    constructor <;> simp [paceIteration, h]

/-! ## Concrete environments for the configuration claims -/

/-- An environment with no overrides set. -/
def envDefaults : Env := fun _ => none

/-- An environment whose three integer overrides are all malformed. -/
def envBadInts : Env := fun name =>
  if name = "PEAK_IMAGES_PER_SECOND" then some "fast"
  else if name = "TEST_DURATION_SECONDS" then some "5m"
  else if name = "LOAD_CONCURRENCY" then some "many"
  else none

/-- An environment whose multiplier override is malformed. -/
def envBadMult : Env := fun name =>
  if name = "LOAD_MULTIPLIER" then some "three" else none

/-- C4 counterexample: a malformed LOAD_MULTIPLIER does not fall back to
the default — float("three") raises ValueError, so construction fails. -/
theorem C4_counterexample_multiplier_raises :
    LoadProfileConfig.from_env envBadMult = none := by
  have henv : envBadMult "LOAD_MULTIPLIER" = some "three" := by decide
  have hparse : pyParseFloat "three" = none := by decide
  simp [LoadProfileConfig.from_env, henv, hparse]

/-- C4 (amended): from_env yields the defaults peak 50/s, multiplier 3.0,
duration 300 s, concurrency 8 when nothing is set; a malformed override of
any of the three integer fields falls back to that field's default through
_env_int; but a malformed LOAD_MULTIPLIER is passed to a bare float() call
whose ValueError propagates, so construction can fail. -/
theorem C4_defaults_and_fallback :
    (∀ (env : Env) (name : String) (d : ℤ), env name = none →
      _env_int env name d = d) ∧
    (∀ (env : Env) (name : String) (d : ℤ) (s : String), env name = some s →
      pyParseInt s = none → _env_int env name d = d) ∧
    (∀ (env : Env) (name : String) (d v : ℤ) (s : String), env name = some s →
      pyParseInt s = some v → _env_int env name d = v) ∧
    LoadProfileConfig.from_env envDefaults
      = some { peak_images_per_second := 50, load_multiplier := 3,
               test_duration_seconds := 300, concurrency := 8 } ∧
    LoadProfileConfig.from_env envBadInts
      = some { peak_images_per_second := 50, load_multiplier := 3,
               test_duration_seconds := 300, concurrency := 8 } ∧
    LoadProfileConfig.from_env envBadMult = none := by
  have hfloat : pyParseFloat "3.0" = some 3 := by
    have h : "3.0".toList = ['3', '.', '0'] := by decide
    simp +decide [pyParseFloat, trimChars, parseUnsignedFloat, digitsToNat, h]
  refine ⟨?_, ?_, ?_, ?_, ?_, ?_⟩
  · intro env name d h
    simp [_env_int, h]
  · intro env name d s hs hp
    simp [_env_int, hs, hp]
  · intro env name d v s hs hp
    simp [_env_int, hs, hp]
  · simp only [LoadProfileConfig.from_env, envDefaults, Option.getD_none,
      hfloat]
    simp [_env_int, envDefaults]
  · have h1 : envBadInts "LOAD_MULTIPLIER" = none := by decide
    have h2 : envBadInts "PEAK_IMAGES_PER_SECOND" = some "fast" := by decide
    have h3 : envBadInts "TEST_DURATION_SECONDS" = some "5m" := by decide
    have h4 : envBadInts "LOAD_CONCURRENCY" = some "many" := by decide
    simp only [LoadProfileConfig.from_env, h1, Option.getD_none, hfloat]
    simp [_env_int, h2, h3, h4, pyParseInt, trimChars, parseDigits,
      isSpaceChar]
  · have henv : envBadMult "LOAD_MULTIPLIER" = some "three" := by decide
    have hparse : pyParseFloat "three" = none := by decide
    simp [LoadProfileConfig.from_env, henv, hparse]

/-! ## List-cell lemmas for the aliasing claim -/

theorem getD_append_lt {α : Type} (l l' : List α) (i : ℕ) (d : α)
    (h : i < l.length) : (l ++ l').getD i d = l.getD i d := by
  induction l generalizing i with
  | nil => simp at h
  | cons x xs ih =>
    cases i with
    | zero => rfl
    | succ n =>
      have hn : n < xs.length := by
        simp only [List.length_cons] at h
        omega
      simpa using ih n hn

theorem getD_append_self {α : Type} (l : List α) (v d : α) :
    (l ++ [v]).getD l.length d = v := by
  induction l with
  | nil => rfl
  | cons x xs ih => simp only [List.cons_append, List.length_cons,
      List.getD_cons_succ]; exact ih

theorem getD_set_ne {α : Type} (l : List α) (i j : ℕ) (v d : α)
    (h : i ≠ j) : (l.set i v).getD j d = l.getD j d := by
  induction l generalizing i j with
  | nil => rfl
  | cons x xs ih =>
    cases i with
    | zero =>
      cases j with
      | zero => exact absurd rfl h
      | succ m => rfl
    | succ n =>
      cases j with
      | zero => rfl
      | succ m =>
        have hm : n ≠ m := fun hh => h (congrArg Nat.succ hh)
        simpa using ih n m hm

theorem getD_set_self {α : Type} (l : List α) (i : ℕ) (v d : α)
    (h : i < l.length) : (l.set i v).getD i d = v := by
  induction l generalizing i with
  | nil => simp at h
  | cons x xs ih =>
    cases i with
    | zero => rfl
    | succ n =>
      have hn : n < xs.length := by
        simp only [List.length_cons] at h
        omega
      simpa using ih n hn

/-- C9: the samples property allocates a fresh list object holding the same
contents as the internal one — reading the fresh cell gives the internal
contents, the internal cell is untouched by the accessor, mutating the
returned cell leaves the internal cell unchanged, record appends exactly
one sample to the internal cell (so the internal sequence only grows), and
the returned cell really is a different object. -/
theorem C9_samples_returns_fresh_copy :
    ∀ (h : Heap) (m : ℕ) (s : Sample) (v : List Sample),
      m < h.cells.length →
      (PerfMetrics.samples h m).1.read (PerfMetrics.samples h m).2
        = h.read m ∧
      (PerfMetrics.samples h m).1.read m = h.read m ∧
      ((PerfMetrics.samples h m).1.write (PerfMetrics.samples h m).2 v).read m
        = h.read m ∧
      (PerfMetrics.record h m s).read m = h.read m ++ [s] ∧
      (PerfMetrics.samples h m).2 ≠ m := by
  intro h m s v hm
  have hne : h.cells.length ≠ m := by omega
  refine ⟨?_, ?_, ?_, ?_, hne⟩
  · exact getD_append_self h.cells (h.read m) []
  · exact getD_append_lt h.cells [h.read m] m [] hm
  · show ((h.cells ++ [h.read m]).set h.cells.length v).getD m [] = h.read m
    rw [getD_set_ne _ _ _ _ _ hne]
    exact getD_append_lt h.cells [h.read m] m [] hm
  · exact getD_set_self h.cells m (h.read m ++ [s]) [] hm

/-- A sample for the C9 witness. -/
def sampleA : Sample :=
  { start_time := 0, end_time := 1, success := .pyBool true }

theorem C9_samples_returns_fresh_copy_witness :
    0 < (Heap.mk [[]]).cells.length ∧
    ((PerfMetrics.samples (Heap.mk [[]]) 0).1.read
        (PerfMetrics.samples (Heap.mk [[]]) 0).2 = (Heap.mk [[]]).read 0 ∧
      (PerfMetrics.samples (Heap.mk [[]]) 0).1.read 0 = (Heap.mk [[]]).read 0 ∧
      ((PerfMetrics.samples (Heap.mk [[]]) 0).1.write
          (PerfMetrics.samples (Heap.mk [[]]) 0).2 [sampleA]).read 0
        = (Heap.mk [[]]).read 0 ∧
      (PerfMetrics.record (Heap.mk [[]]) 0 sampleA).read 0
        = (Heap.mk [[]]).read 0 ++ [sampleA] ∧
      (PerfMetrics.samples (Heap.mk [[]]) 0).2 ≠ 0) :=
  ⟨by decide,
    C9_samples_returns_fresh_copy (Heap.mk [[]]) 0 sampleA [sampleA]
      (by decide)⟩

end DicomAuto
